import Mathlib

/-!
Verification of the AgentPayy payment-protocol SDK.

Shallow embedding of the Python sources:
* `agentpayy/meta_bridge.py`        — `AgentPayyGate.process_inbound_message`
* `agentpayy/agent_protocol.py`     — `AgentEconomyHandshake.challenge` / `verify_request`
* `agentpayy/coinbase_wallet.py`    — `AgentPayyWallet.pay_with_splits` (the cut arithmetic)
* `agentpayy/x402.py`               — `X402Client.request`
* `examples/fastapi-wrapper/main.py`— `AgentPayyMiddleware._verify_payment`

Conventions of the embedding:
* Python dict values that are tested for truthiness (`if not x`) are modelled as
  `Option String`, with `none` and `some ""` both falsy (`truthy`).
* Python float amounts are modelled as exact rationals `ℚ`; the arithmetic in the
  source is the plain `*`, `-` of Python floats, translated termwise.
* Instants (`time.time()`, float seconds) are modelled as `Nat` milliseconds;
  Python's `int(time.time())` is `now_ms / 1000`.
* The external wallet / ledger oracle (`wallet.verify_transaction`, `wallet.verify_tx`,
  `kit.pay`) and the remote HTTP service (`requests.request`) are out of scope per the
  spec and enter as function parameters.
-/

namespace AgentPayy

/-- Python truthiness of an optional string field: `None` and `""` are falsy. -/
def truthy : Option String → Bool
  | none => false
  | some s => !(s == "")

/-! ## meta_bridge.py — AgentPayyGate -/

/-- The dict returned by `AgentPayyGate.process_inbound_message`; absent keys are `none`.
`priceUSDC` keeps the numeric value whose rendering the Python f-string interpolates. -/
structure GateResponse where
  status : Nat
  error : Option String := none
  message : Option String := none
  priceUSDC : Option ℚ := none
  address : Option String := none
  memo : Option String := none
deriving DecidableEq

/-- The inbound message fields read by the gate. -/
structure InboundMessage where
  is_premium : Bool
  payment_proof : Option String

/-- `AgentPayyGate.__init__` state: the wallet's address and `price_per_request`. -/
structure Gate where
  walletAddress : String
  price : ℚ

/-- `AgentPayyGate.process_inbound_message`, with the wallet's on-chain check
`verify_tx` passed in as the external oracle. -/
def Gate.process_inbound_message (g : Gate) (verify_tx : String → Bool)
    (msg : InboundMessage) : GateResponse :=
  if msg.is_premium && !(truthy msg.payment_proof) then
    { status := 402, error := some "Payment Required", priceUSDC := some g.price,
      address := some g.walletAddress, memo := some "Handshake for Bot Collaboration" }
  else
    match msg.payment_proof with
    | some p =>
      if p == "" then { status := 402, error := some "Invalid Payment" }
      else if verify_tx p then { status := 200, message := some "Success" }
      else { status := 402, error := some "Invalid Payment" }
    | none => { status := 402, error := some "Invalid Payment" }

/-! ## agent_protocol.py — AgentEconomyHandshake -/

/-- Decimal rendering of a natural number, as Python's f-string interpolation of an
`int` renders it (digit characters via `Nat.digitChar`, most significant first). -/
def natDecimal (n : Nat) : String :=
  if n = 0 then "0" else ⟨(Nat.digits 10 n).reverse.map Nat.digitChar⟩

/-- The `transaction_memo` of a challenge: `f"B2B_{service_name}_{int(time.time())}"`,
with the instant given in milliseconds. -/
def memoOf (service_name : String) (now_ms : Nat) : String :=
  "B2B_" ++ service_name ++ "_" ++ natDecimal (now_ms / 1000)

/-- `AgentEconomyHandshake.__init__` state: service name, price and the wallet's
address (the value `self.wallet.get_address()` returns). -/
structure Handshake where
  service_name : String
  price : ℚ
  walletAddress : String

/-- The dict returned by `challenge` / `verify_request`; absent keys are `none`.
`costUSDC` keeps the numeric value rendered by `f"{self.price} USDC"`. -/
structure HandshakeResponse where
  status : Nat
  reason : Option String := none
  service : Option String := none
  costUSDC : Option ℚ := none
  recipient : Option String := none
  chain : Option String := none
  transaction_memo : Option String := none
  access : Option String := none
  error : Option String := none
deriving DecidableEq

/-- `AgentEconomyHandshake.challenge`: the 402 payload. It performs no input
validation and has no failure path. -/
def Handshake.challenge (h : Handshake) (now_ms : Nat) : HandshakeResponse :=
  { status := 402, reason := some "Payment Required", service := some h.service_name,
    costUSDC := some h.price, recipient := some h.walletAddress,
    chain := some "base-l2",
    transaction_memo := some (memoOf h.service_name now_ms) }

/-- The message fields read by `verify_request`. -/
structure BotMessage where
  payment_proof : Option String

/-- `AgentEconomyHandshake.verify_request`, with the wallet's
`verify_transaction(tx_hash, expected_amount)` passed in as the external oracle.
Note: the function is pure — it keeps no record of transaction hashes it has
already accepted. -/
def Handshake.verify_request (h : Handshake) (verify_transaction : String → ℚ → Bool)
    (msg : BotMessage) (now_ms : Nat) : HandshakeResponse :=
  match msg.payment_proof with
  | some tx =>
    if tx == "" then h.challenge now_ms
    else if verify_transaction tx h.price then { status := 200, access := some "granted" }
    else { status := 403, error := some "Insufficient or invalid payment" }
  | none => h.challenge now_ms

/-- A sequence of `verify_request` calls on one handshake. `verify_request` mutates
nothing, so consecutive calls are exactly a `map`. -/
def Handshake.processRequests (h : Handshake) (verify_transaction : String → ℚ → Bool)
    (now_ms : Nat) (msgs : List BotMessage) : List HandshakeResponse :=
  msgs.map (fun m => h.verify_request verify_transaction m now_ms)

/-! ## coinbase_wallet.py — AgentPayyWallet.pay_with_splits (cut arithmetic)

The Python computes, on float `amount`:
  `author_cut    = amount * 0.80`
  `affiliate_cut = amount * 0.05 if affiliate_address else 0`
  `platform_cut  = amount - author_cut - affiliate_cut`
modelled here termwise over exact rationals. -/

/-- `author_cut = amount * 0.80`. -/
def author_cut (amount : ℚ) : ℚ := amount * 0.80

/-- `affiliate_cut = amount * 0.05 if affiliate_address else 0`. -/
def affiliate_cut (amount : ℚ) (affiliate_address : Option String) : ℚ :=
  if truthy affiliate_address then amount * 0.05 else 0

/-- `platform_cut = amount - author_cut - affiliate_cut`. -/
def platform_cut (amount : ℚ) (affiliate_address : Option String) : ℚ :=
  amount - author_cut amount - affiliate_cut amount affiliate_address

/-- Truncation of an amount to USDC's minimum unit (10⁻⁶). This is the spec's
"floor(… * a) truncated to the asset's minimum unit" operation, stated for
comparison with the source's cuts; the source itself never truncates. -/
def floorUnit (q : ℚ) : ℚ := ((Int.floor (q * 1000000) : ℤ) : ℚ) / 1000000

/-! ## examples/fastapi-wrapper/main.py — AgentPayyMiddleware._verify_payment -/

/-- `AgentPayyMiddleware._verify_payment`: the complete payment check of the
middleware, `len(tx_hash) == 66 and tx_hash.startswith("0x")` (`startswith`
rendered as equality of the first two characters). It takes no oracle, no
ledger handle and no network: its decision is a pure function of the hash
string. -/
def verify_payment (tx_hash : String) : Bool :=
  tx_hash.length == 66 && tx_hash.data.take 2 == "0x".data

/-! ## x402.py — X402Client.request

`requests.request` on the n-th network attempt is modelled as `service n`; the
wallet call `kit.pay(...)` on the n-th attempt as `pay n` (`some tx_hash` on
success, `none` when it raises). The function returns the final response paired
with the number of payments performed. -/

/-- The fields of an HTTP response read by `X402Client.request`:
`status_code` and the `x-agentpay-price` / `x-agentpay-recipient` /
`x-agentpay-model-id` headers (absent headers are `none`). -/
structure HttpResponse where
  status : Nat
  price : Option String := none
  recipient : Option String := none
  model_id : Option String := none
deriving DecidableEq

namespace X402

/-- `X402Client.request`, recursing on the retry budget exactly as the source's
`self.request(method, url, max_retries - 1, **kwargs)` does. The second
component counts wallet payments performed. With `max_retries = 0` the 402
branch is not entered and the response is returned as-is. -/
def request (service : Nat → HttpResponse) (pay : Nat → Option String) :
    Nat → Nat → HttpResponse × Nat
  | 0, attempt => (service attempt, 0)
  | Nat.succ r, attempt =>
    let resp := service attempt
    if resp.status == 402 then
      if !(truthy resp.price) || !(truthy resp.recipient) then (resp, 0)
      else
        match pay attempt with
        | none => (resp, 0)
        | some _tx =>
          let rest := request service pay r (attempt + 1)
          (rest.1, rest.2 + 1)
    else (resp, 0)

end X402

/-! ## Helper lemmas -/

/-- A non-empty string value is truthy. -/
lemma truthy_some {s : String} (hs : s ≠ "") : truthy (some s) = true := by
  simp [truthy, hs]

/-- The value of a digit character, as read back from its code point. -/
lemma digitChar_val {d : Nat} (hd : d < 10) : (Nat.digitChar d).toNat - 48 = d := by
  interval_cases d <;> decide

/-- Decoding of a decimal digit string back to the natural number it renders. -/
def decodeDecimal (l : List Char) : Nat :=
  Nat.ofDigits 10 ((l.map (fun c => c.toNat - 48)).reverse)

/-- `decodeDecimal` is a left inverse of `natDecimal`. -/
lemma decodeDecimal_natDecimal (n : Nat) : decodeDecimal (natDecimal n).data = n := by
  unfold natDecimal decodeDecimal
  by_cases h : n = 0
  · simp only [h, if_pos rfl]
    decide
  · rw [if_neg h]
    have hmap : ((Nat.digits 10 n).reverse.map Nat.digitChar).map (fun c => c.toNat - 48)
        = (Nat.digits 10 n).reverse := by
      rw [List.map_map]
      have : ∀ d ∈ (Nat.digits 10 n).reverse,
          ((fun c => c.toNat - 48) ∘ Nat.digitChar) d = id d := by
        intro d hd
        have hd10 : d < 10 :=
          Nat.digits_lt_base (by norm_num) (List.mem_reverse.mp hd)
        simpa using digitChar_val hd10
      rw [List.map_congr_left this, List.map_id]
    show Nat.ofDigits 10
        ((((Nat.digits 10 n).reverse.map Nat.digitChar).map (fun c => c.toNat - 48)).reverse) = n
    rw [hmap, List.reverse_reverse, Nat.ofDigits_digits]

/-- Decimal rendering is injective. -/
lemma natDecimal_injective : Function.Injective natDecimal := by
  intro m n h
  have := congrArg (fun s => decodeDecimal s.data) h
  simpa [decodeDecimal_natDecimal] using this

/-! ## C3 — the split sums exactly, each cut non-negative -/

/-- C3: for every amount a > 0 and every choice of author and optional affiliate
address, the revenue split satisfies
authorCut + affiliateCut + platformCut = a exactly, with each cut non-negative
(arithmetic modelled exactly over ℚ). -/
theorem split_sum_exact_nonneg (a : ℚ) (aff : Option String) (ha : 0 < a) :
    0 ≤ author_cut a ∧ 0 ≤ affiliate_cut a aff ∧ 0 ≤ platform_cut a aff ∧
    author_cut a + affiliate_cut a aff + platform_cut a aff = a := by
  refine ⟨by unfold author_cut; nlinarith, ?_, ?_, by unfold platform_cut; ring⟩
  · unfold affiliate_cut
    rcases Bool.eq_false_or_eq_true (truthy aff) with h | h
    · rw [h]; simp; nlinarith
    · rw [h]; simp
  · unfold platform_cut author_cut affiliate_cut
    rcases Bool.eq_false_or_eq_true (truthy aff) with h | h
    · rw [h]; simp; nlinarith
    · rw [h]; simp; nlinarith

/-- C3 witness: the split of 100 USDC with an affiliate present. -/
theorem split_sum_exact_nonneg_witness :
    0 ≤ author_cut 100 ∧ 0 ≤ affiliate_cut 100 (some "0xAff") ∧
    0 ≤ platform_cut 100 (some "0xAff") ∧
    author_cut 100 + affiliate_cut 100 (some "0xAff") + platform_cut 100 (some "0xAff") = 100 :=
  split_sum_exact_nonneg 100 (some "0xAff") (by norm_num)

/-! ## C4 — the percentage schedule -/

/-- C4 counterexample: at amount a = 1.0000011 with an affiliate present, the code's
author cut is the exact product 0.80000088 — not floor(0.80·a) truncated to USDC's
minimum unit (which is 0.800000) — and the platform cut is 15% of a, not the 20%
the claim states for the affiliate case. -/
theorem split_percentages_counterexample :
    (0 : ℚ) < 10000011/10000000 ∧
    author_cut (10000011/10000000) ≠ floorUnit ((0.80 : ℚ) * (10000011/10000000)) ∧
    platform_cut (10000011/10000000) (some "0xAff") ≠ (20/100 : ℚ) * (10000011/10000000) := by
  refine ⟨by norm_num, ?_, ?_⟩
  · norm_num [floorUnit, author_cut]
  · rw [platform_cut, affiliate_cut, truthy_some (by decide)]
    norm_num [author_cut]

/-- C4 (amended): the cuts are the exact products, with no truncation to the asset's
minimum unit: author 0.80·a; affiliate 0.05·a when an affiliate address is present
(truthy) and 0 otherwise; the platform takes the exact remainder — 15% of a when an
affiliate is present, 20% when not. -/
theorem split_exact_percentages (a : ℚ) (s : String) (_ha : 0 < a) (hs : s ≠ "") :
    author_cut a = (80/100) * a ∧
    affiliate_cut a (some s) = (5/100) * a ∧
    affiliate_cut a none = 0 ∧
    platform_cut a (some s) = (15/100) * a ∧
    platform_cut a none = (20/100) * a := by
  have ht := truthy_some hs
  have h08 : (0.80 : ℚ) = 80/100 := by norm_num
  have h005 : (0.05 : ℚ) = 5/100 := by norm_num
  have hauthor : author_cut a = (80/100) * a := by rw [author_cut, h08]; ring
  have haffs : affiliate_cut a (some s) = (5/100) * a := by
    rw [show affiliate_cut a (some s) = a * 0.05 from by simp [affiliate_cut, ht], h005]
    ring
  have haffn : affiliate_cut a none = 0 := by rw [affiliate_cut]; simp [truthy]
  refine ⟨hauthor, haffs, haffn, ?_, ?_⟩
  · rw [platform_cut, hauthor, haffs]; ring
  · rw [platform_cut, hauthor, haffn]; ring

/-- C4 (amended) witness: the exact percentage schedule at a = 100 with affiliate
address "0xAff". -/
theorem split_exact_percentages_witness :
    author_cut 100 = (80/100) * 100 ∧
    affiliate_cut 100 (some "0xAff") = (5/100) * 100 ∧
    affiliate_cut 100 none = 0 ∧
    platform_cut 100 (some "0xAff") = (15/100) * 100 ∧
    platform_cut 100 none = (20/100) * 100 :=
  split_exact_percentages 100 "0xAff" (by norm_num) (by decide)

/-! ## C5 — the retry loop is bounded -/

/-- C5: for every service behaviour, wallet behaviour and retry budget, the auto-pay
client performs at most `retries` payments — one payment per retry decrement. The
recursion is total by construction (it is a well-defined Lean function structurally
decreasing in the budget), so the loop always terminates. -/
theorem x402_payments_le_budget (service : Nat → HttpResponse)
    (pay : Nat → Option String) :
    ∀ retries attempt, (X402.request service pay retries attempt).2 ≤ retries := by
  intro retries
  induction retries with
  | zero => intro attempt; simp [X402.request]
  | succ r ih =>
    intro attempt
    cases h1 : (service attempt).status == 402 with
    | false => simp [X402.request, h1]
    | true =>
      cases h2 : !truthy (service attempt).price || !truthy (service attempt).recipient with
      | true => simp [X402.request, h1, h2]
      | false =>
        cases h3 : pay attempt with
        | none => simp [X402.request, h1, h2, h3]
        | some tx =>
          have hrec := ih (attempt + 1)
          simp [X402.request, h1, h2, h3]
          omega

/-! ## C6 — no local spending policy exists -/

/-- The service of the spec's policy scenario: the first attempt returns a
payment-required response priced 0.05 USDC, any retry succeeds. -/
def svcPolicyScenario : Nat → HttpResponse := fun n =>
  if n = 0 then
    { status := 402, price := some "0.05", recipient := some "0xService",
      model_id := some "premium-data-v1" }
  else { status := 200 }

/-- A wallet whose payment always succeeds. -/
def payAlways : Nat → Option String := fun _ => some "0xTXHASH"

/-- C6 counterexample: in the spec's scenario (spentSoFar = 0.99, maxSpend = 1.00,
incoming price 0.05, so spentSoFar + price exceeds maxSpend), the client still
performs one wallet payment: `X402Client.request` consults no policy object at all —
no `PolicyRejected` outcome exists anywhere in its code path. -/
theorem x402_no_policy_counterexample :
    ((99 : ℚ)/100 + 5/100 > 1) ∧ (X402.request svcPolicyScenario payAlways 1 0).2 = 1 :=
  ⟨by norm_num, rfl⟩

/-- C6 (amended): the client enforces no local spending policy: whenever a
payment-required response carries truthy price and recipient headers, the retry
budget is positive and the wallet succeeds, a wallet payment is performed
unconditionally — the guardrails stored by `bootstrap` (max_spend,
allowed_categories) are never read on the request path. -/
theorem x402_pays_without_policy_check (service : Nat → HttpResponse)
    (pay : Nat → Option String) (r attempt : Nat) (tx : String)
    (h402 : (service attempt).status = 402)
    (hp : truthy (service attempt).price = true)
    (hr : truthy (service attempt).recipient = true)
    (hw : pay attempt = some tx) :
    1 ≤ (X402.request service pay (r + 1) attempt).2 := by
  unfold X402.request
  simp [h402, hp, hr, hw]

/-- C6 (amended) witness: with a positive budget and a succeeding wallet, the
scenario service provokes a payment. -/
theorem x402_pays_without_policy_check_witness :
    1 ≤ (X402.request svcPolicyScenario payAlways (0 + 1) 0).2 :=
  x402_pays_without_policy_check svcPolicyScenario payAlways 0 0 "0xTXHASH" rfl rfl rfl rfl

/-! ## C9 — failure cases return the original payment-required response -/

/-- C9: on a payment-required response, if the retry budget is zero, or the price or
recipient header is missing/blank, or the wallet payment fails, the client returns
the original payment-required response unchanged, performing no payment. -/
theorem x402_returns_original_on_failure (service : Nat → HttpResponse)
    (pay : Nat → Option String) (retries attempt : Nat)
    (h402 : (service attempt).status = 402)
    (hfail : retries = 0 ∨ truthy (service attempt).price = false ∨
      truthy (service attempt).recipient = false ∨ pay attempt = none) :
    X402.request service pay retries attempt = (service attempt, 0) := by
  cases retries with
  | zero => rfl
  | succ r =>
    rcases hfail with h | h | h | h
    · exact absurd h (Nat.succ_ne_zero r)
    · unfold X402.request; simp [h402, h]
    · unfold X402.request; simp [h402, h]
    · unfold X402.request; simp [h402, h]

/-- A service that always answers 402 with no payment headers. -/
def svcBare402 : Nat → HttpResponse := fun _ => { status := 402 }

/-- C9 witness: a header-less 402 is returned unchanged even with budget left. -/
theorem x402_returns_original_witness :
    X402.request svcBare402 payAlways 3 0 = (svcBare402 0, 0) :=
  x402_returns_original_on_failure svcBare402 payAlways 3 0 rfl
    (Or.inr (Or.inl rfl))

/-! ## C7 — memo uniqueness across issuance instants -/

/-- C7 counterexample: the instants 100 ms and 900 ms are distinct, but both fall in
whole second 0, and `int(time.time())` truncates to whole seconds — the two
challenges carry the identical memo. -/
theorem memo_collision_same_second :
    (100 : Nat) ≠ 900 ∧ memoOf "alpha-signals" 100 = memoOf "alpha-signals" 900 :=
  ⟨by decide, rfl⟩

/-- C7 (amended): two challenges for the same service issued at instants falling in
distinct whole seconds carry distinct memos (the second-resolution nonce renders
injectively into the memo); instants within the same whole second collide. -/
theorem memo_distinct_across_seconds (s : String) (t1 t2 : Nat)
    (h : t1 / 1000 ≠ t2 / 1000) : memoOf s t1 ≠ memoOf s t2 := by
  intro he
  apply h
  unfold memoOf at he
  have hd : ("B2B_".data ++ s.data ++ "_".data) ++ (natDecimal (t1 / 1000)).data
      = ("B2B_".data ++ s.data ++ "_".data) ++ (natDecimal (t2 / 1000)).data := by
    have := congrArg String.data he
    simpa only [String.data_append] using this
  have h3 : (natDecimal (t1 / 1000)).data = (natDecimal (t2 / 1000)).data :=
    List.append_cancel_left hd
  exact natDecimal_injective (String.ext h3)

/-- C7 (amended) witness: instants 1000 ms and 2500 ms fall in seconds 1 and 2, and
their memos differ. -/
theorem memo_distinct_across_seconds_witness :
    memoOf "alpha-signals" 1000 ≠ memoOf "alpha-signals" 2500 :=
  memo_distinct_across_seconds "alpha-signals" 1000 2500 (by decide)

/-! ## C8 — challenge never validates its inputs -/

/-- C8 counterexample: with price −1 (so price ≤ 0) and an empty service name,
`challenge` signals no error at all: it returns the ordinary 402 payload built from
those very inputs. -/
theorem challenge_no_error_on_invalid_input :
    ((-1 : ℚ) ≤ 0) ∧
    Handshake.challenge ⟨"", -1, "0xAddr"⟩ 0 =
      { status := 402, reason := some "Payment Required", service := some "",
        costUSDC := some (-1), recipient := some "0xAddr", chain := some "base-l2",
        transaction_memo := some (memoOf "" 0) } :=
  ⟨by norm_num, rfl⟩

/-- C8 (amended): `challenge` is total and never signals any error: for every
price (including price ≤ 0) and every service name (including the empty string) it
returns the 402 payload, with no error field set. -/
theorem challenge_total_never_fails (h : Handshake) (t : Nat) :
    (h.challenge t).status = 402 ∧ (h.challenge t).error = none :=
  ⟨rfl, rfl⟩

/-! ## C10 — unpaid non-premium messages -/

/-- C10: an inbound message that is not marked premium and carries no (truthy)
payment proof is answered with status 402 and error "Invalid Payment" — never
passed through with status 200. -/
theorem unpaid_nonpremium_rejected (g : Gate) (verify_tx : String → Bool)
    (msg : InboundMessage) (hprem : msg.is_premium = false)
    (hproof : truthy msg.payment_proof = false) :
    g.process_inbound_message verify_tx msg =
      { status := 402, error := some "Invalid Payment" } := by
  unfold Gate.process_inbound_message
  rw [hprem]
  cases hmsg : msg.payment_proof with
  | none => simp
  | some p =>
    rw [hmsg] at hproof
    have hp : p = "" := by simpa [truthy] using hproof
    simp [hp]

/-- C10 witness: a non-premium message with no proof, against a gate whose oracle
would accept anything, is still rejected with "Invalid Payment". -/
theorem unpaid_nonpremium_rejected_witness :
    Gate.process_inbound_message ⟨"0xGateWallet", 1/100⟩ (fun _ => true) ⟨false, none⟩
      = { status := 402, error := some "Invalid Payment" } :=
  unpaid_nonpremium_rejected ⟨"0xGateWallet", 1/100⟩ (fun _ => true) ⟨false, none⟩ rfl rfl

/-! ## C1 — replay protection -/

/-- C1 counterexample: against an oracle that confirms the transaction, presenting
the identical txRef "0xT1" twice yields granted (status 200) both times. The second
call is not rejected: `verify_request` records nothing between calls and its
response vocabulary has no ReplayedProof rejection at all. -/
theorem replay_accepted_twice :
    Handshake.processRequests ⟨"alpha-signals", 1/2, "0xSeller"⟩ (fun _ _ => true) 0
      [⟨some "0xT1"⟩, ⟨some "0xT1"⟩]
    = [{ status := 200, access := some "granted" },
       { status := 200, access := some "granted" }] := rfl

/-- C1 (amended): the verifier is stateless, so an oracle-confirmed txRef is granted
on every presentation: the identical proof presented n times is granted n times,
and no presentation is ever rejected as a replay. -/
theorem verify_request_grants_every_presentation (h : Handshake)
    (verify_transaction : String → ℚ → Bool) (tx : String) (t n : Nat)
    (htx : tx ≠ "") (hconf : verify_transaction tx h.price = true) :
    h.processRequests verify_transaction t (List.replicate n ⟨some tx⟩)
      = List.replicate n { status := 200, access := some "granted" } := by
  have hbeq : (tx == "") = false := by simp [htx]
  unfold Handshake.processRequests Handshake.verify_request
  rw [List.map_replicate]
  simp [hbeq, hconf]

/-- C1 (amended) witness: three presentations of the same confirmed txRef are
granted three times. -/
theorem verify_request_grants_witness :
    Handshake.processRequests ⟨"beta-feeds", 1, "0xS"⟩ (fun _ _ => true) 5
      (List.replicate 3 ⟨some "0xT9"⟩)
    = List.replicate 3 { status := 200, access := some "granted" } :=
  verify_request_grants_every_presentation ⟨"beta-feeds", 1, "0xS"⟩ (fun _ _ => true)
    "0xT9" 5 3 (by decide) rfl

/-! ## C2 — access decisions versus the ledger oracle -/

/-- A 66-character transaction hash starting with "0x" that corresponds to no ledger
transaction anywhere. -/
def demoTxHash : String :=
  "0x0000000000000000000000000000000000000000000000000000000000000000"

/-- C2 counterexample: the FastAPI middleware's `_verify_payment` accepts
`demoTxHash` although a ledger oracle confirming nothing has confirmed no
transaction: the middleware's decision is computed from the proof's surface syntax
alone, so the claim "access is granted only if the external ledger oracle has
confirmed the transaction" fails for it. -/
theorem middleware_grants_without_oracle :
    ¬ ∀ (ledgerConfirms : String → Bool), verify_payment demoTxHash = true →
        ledgerConfirms demoTxHash = true := by
  intro hclaim
  exact Bool.false_ne_true (hclaim (fun _ => false) rfl)

/-- C2 (amended): the bot-handshake verifier does grant only on oracle confirmation:
whenever `verify_request` returns granted, the message carried a non-empty proof
that the wallet oracle `verify_transaction` confirmed at the expected price. The
FastAPI middleware, by contrast, consults no oracle (see the counterexample). -/
theorem handshake_grant_requires_oracle (h : Handshake)
    (verify_transaction : String → ℚ → Bool) (msg : BotMessage) (t : Nat)
    (hg : h.verify_request verify_transaction msg t
      = { status := 200, access := some "granted" }) :
    ∃ tx, msg.payment_proof = some tx ∧ verify_transaction tx h.price = true := by
  unfold Handshake.verify_request at hg
  cases hmsg : msg.payment_proof with
  | none =>
    rw [hmsg] at hg
    simp [Handshake.challenge] at hg
  | some tx =>
    rw [hmsg] at hg
    by_cases hemp : (tx == "") = true
    · simp [hemp, Handshake.challenge] at hg
    · by_cases hv : verify_transaction tx h.price = true
      · exact ⟨tx, rfl, hv⟩
      · simp [hemp, hv] at hg

/-- C2 (amended) witness: a granted concrete call exposes its confirmed proof. -/
theorem handshake_grant_requires_oracle_witness :
    ∃ tx, (BotMessage.mk (some "0xT1")).payment_proof = some tx ∧
      (fun (_ : String) (_ : ℚ) => true) tx (Handshake.mk "svc" 1 "0xS").price = true :=
  handshake_grant_requires_oracle (Handshake.mk "svc" 1 "0xS")
    (fun _ _ => true) (BotMessage.mk (some "0xT1")) 0 rfl

end AgentPayy
